import Mathlib

set_option maxRecDepth 100000

/-!
Verification of the RTSP/RTP video server (`rtsp_server.py`).

The media plane (`create_rtp_header`, the packetization loop of
`rtp_stream_video`) is embedded as pure functions over `List Nat` byte
sequences; the mutable `sequence_number` / `streaming_active` state is
threaded explicitly.  The control plane (`handle_rtsp_client`) is embedded
as a state machine over an explicit server state, with protocol text
modelled as `List Char` and socket operations as an effect list.
-/

/-! ## Configuration constants (from the source header) -/

def RTP_PORT : Nat := 5004

def RTSP_PORT : Nat := 554

def MAX_PACKET_SIZE : Nat := 1400

def RTP_HEADER_SIZE : Nat := 12

/-! ## RTP header and datagrams

`struct.pack("!BBHII", ...)` is a fixed big-endian layout: two single
bytes, one 16-bit field, two 32-bit fields.
-/

def pack16 (n : Nat) : List Nat := [n / 256 % 256, n % 256]

def pack32 (n : Nat) : List Nat :=
  [n / 16777216 % 256, n / 65536 % 256, n / 256 % 256, n % 256]

def create_rtp_header (sequence_number timestamp ssrc : Nat) : List Nat :=
  [0x80, 26] ++ pack16 sequence_number ++ pack32 timestamp ++ pack32 ssrc

/-- One UDP datagram as assembled at line 105 of the source:
a 12-byte RTP header followed by a JPEG payload slice. -/
structure Datagram where
  seq : Nat
  timestamp : Nat
  ssrc : Nat
  payload : List Nat
deriving DecidableEq

def Datagram.bytes (d : Datagram) : List Nat :=
  create_rtp_header d.seq d.timestamp d.ssrc ++ d.payload

/-- Lines 115-117: `sequence_number += 1; if sequence_number > 65535: sequence_number = 0`. -/
def next_seq (sequence_number : Nat) : Nat :=
  if sequence_number + 1 > 65535 then 0 else sequence_number + 1

/-- The inner packetization loop of `rtp_stream_video` (lines 97-118),
recursing on the part of `jpeg_data` that is at or after `offset`.
Returns the emitted datagrams together with the final value of the
mutable `sequence_number`.  `payload_size` is computed over `Int`
exactly as the Python expression
`min(len(jpeg_data) - offset, MAX_PACKET_SIZE - RTP_HEADER_SIZE)`,
with the `if payload_size <= 0: break` guard. -/
def fragment (maxPacketSize : Nat) (data : List Nat) (sequence_number timestamp ssrc : Nat) :
    List Datagram × Nat :=
  if hdata : data = [] then ([], sequence_number)
  else
    let payload_size : Int := min (data.length : Int) ((maxPacketSize : Int) - (RTP_HEADER_SIZE : Int))
    if hps : payload_size ≤ 0 then ([], sequence_number)
    else
      let n := payload_size.toNat
      let rest := fragment maxPacketSize (data.drop n) (next_seq sequence_number) timestamp ssrc
      (⟨sequence_number, timestamp, ssrc, data.take n⟩ :: rest.1, rest.2)
termination_by data.length
decreasing_by
  simp only [List.length_drop]
  have hlen : 0 < data.length := List.length_pos.mpr hdata
  omega

/-- The outer `while streaming_active:` capture loop of `rtp_stream_video`
(lines 84-118).  The frame source and JPEG encoder are external
collaborators: `frames` is the list of encoded payloads the source would
deliver, each paired with the timestamp computed for it; `activeAt i` is
the value of the shared `streaming_active` flag observed at the `i`-th
check of the loop condition.  Exhaustion of `frames` is the `ret == False`
branch that stops the stream. -/
def streamLoop (activeAt : Nat → Bool) (ssrc : Nat) (frames : List (List Nat × Nat))
    (i s : Nat) : List Datagram :=
  if activeAt i = false then []
  else
    match frames with
    | [] => []
    | (jpeg_data, timestamp) :: rest =>
        let fr := fragment MAX_PACKET_SIZE jpeg_data s timestamp ssrc
        fr.1 ++ streamLoop activeAt ssrc rest (i + 1) fr.2

/-- `rtp_stream_video` (lines 62-122): if the capture device fails to open
(lines 71-75) the thread sets `streaming_active = False` and returns
without sending anything; otherwise it runs the capture loop with
`sequence_number = 0` and `ssrc = 0x12345678`.  The returned `Bool` is the
value of `streaming_active` when the thread exits, which is `False` on
every exit path. -/
def rtp_stream_video (sourceOpens : Bool) (activeAt : Nat → Bool)
    (frames : List (List Nat × Nat)) : List Datagram × Bool :=
  if sourceOpens = false then ([], false)
  else (streamLoop activeAt 0x12345678 frames 0 0, false)

/-! ## Protocol text model

Requests and responses are the UTF-8 text the source manipulates,
modelled as `List Char`.  `splitCRLF` is Python's `data.split('\r\n')`,
`splitColon` is `line.split(':')`, `strip` is `str.strip()` on its
default whitespace set, `startsWithL` is `str.startswith`, and
`containsSub` is Python's substring containment (`needle in hay`).
-/

/-- The character class Python `str.strip()` removes: every code point
with `str.isspace() == True` — the ASCII range `\t`-`\r` and space,
the separators `\x1c`-`\x1f`, NEL `\x85`, NBSP `\xa0`, and the
Unicode space/line/paragraph separators. -/
def isPySpace (c : Char) : Bool :=
  (9 <= c.toNat && c.toNat <= 13) || (28 <= c.toNat && c.toNat <= 31) ||
    c.toNat == 32 || c.toNat == 133 || c.toNat == 160 || c.toNat == 5760 ||
    (8192 <= c.toNat && c.toNat <= 8202) || c.toNat == 8232 || c.toNat == 8233 ||
    c.toNat == 8239 || c.toNat == 8287 || c.toNat == 12288

def strip (s : List Char) : List Char :=
  ((s.dropWhile isPySpace).reverse.dropWhile isPySpace).reverse

def splitCRLF : List Char → List (List Char)
  | [] => [[]]
  | '\r' :: '\n' :: rest => [] :: splitCRLF rest
  | c :: rest =>
    match splitCRLF rest with
    | [] => [[c]]
    | line :: ls => (c :: line) :: ls

def splitColon : List Char → List (List Char)
  | [] => [[]]
  | c :: rest =>
    if c = ':' then [] :: splitColon rest
    else
      match splitColon rest with
      | [] => [[c]]
      | piece :: ps => (c :: piece) :: ps

def startsWithL (s pre : List Char) : Bool :=
  match s, pre with
  | _, [] => true
  | [], _ :: _ => false
  | c :: cs, p :: ps => c == p && startsWithL cs ps

def containsSub (needle : List Char) : List Char → Bool
  | [] => needle.isEmpty
  | c :: rest => startsWithL (c :: rest) needle || containsSub needle rest

/-- Lines 146-151: scan the `\r\n`-separated lines for the first one
starting with `CSeq:`; take `line.split(":")[1].strip()`; default `"1"`. -/
def find_cseq : List (List Char) → List Char
  | [] => "1".toList
  | line :: rest =>
    if startsWithL line ("CSeq:".toList) then strip ((splitColon line).getD 1 [])
    else find_cseq rest

def parse_cseq (data : List Char) : List Char := find_cseq (splitCRLF data)

/-! ## Response text (lines 153-237) -/

def setup_response (cseq : List Char) : List Char :=
  "RTSP/1.0 200 OK\r\nCSeq: ".toList ++ cseq ++
    ("\r\nTransport: RTP/AVP;unicast;client_port=" ++ toString RTP_PORT ++ "-" ++
      toString (RTP_PORT + 1) ++ "\r\nSession: 12345678\r\n\r\n").toList

def play_response (cseq : List Char) : List Char :=
  "RTSP/1.0 200 OK\r\nCSeq: ".toList ++ cseq ++ "\r\nSession: 12345678\r\n\r\n".toList

def teardown_response (cseq : List Char) : List Char :=
  "RTSP/1.0 200 OK\r\nCSeq: ".toList ++ cseq ++ "\r\n\r\n".toList

def payload_type_jpeg : Nat := 26

def sdp_payload : List Char :=
  ("v=0\r\no=- 0 0 IN IP4 127.0.0.1\r\ns=RTSP Stream\r\nt=0 0\r\na=control:rtsp://127.0.0.1:" ++
    toString RTSP_PORT ++ "/stream\r\nm=video 0 RTP/AVP " ++ toString payload_type_jpeg ++
    "\r\na=rtpmap:" ++ toString payload_type_jpeg ++ " JPEG/90000\r\na=control:streamid=0\r\n").toList

def describe_response (cseq : List Char) : List Char :=
  "RTSP/1.0 200 OK\r\nCSeq: ".toList ++ cseq ++
    (("\r\nContent-Type: application/sdp\r\nContent-Length: " ++
      toString sdp_payload.length ++ "\r\n\r\n").toList ++ sdp_payload)

def options_response (cseq : List Char) : List Char :=
  "RTSP/1.0 200 OK\r\nCSeq: ".toList ++ cseq ++
    "\r\nPublic: DESCRIBE, SETUP, TEARDOWN, PLAY, PAUSE, OPTIONS\r\n\r\n".toList

def bad_request_response (cseq : List Char) : List Char :=
  "RTSP/1.0 400 Bad Request\r\nCSeq: ".toList ++ cseq ++ "\r\n\r\n".toList

/-! ## Controller state machine (lines 124-247)

`SState` is the shared global state: the `streaming_active` flag and the
number of live RTP streamer threads.  `Effect` records the observable
socket operations of one handler activation, in program order.  The
`Bool` returned by `handle_request` is whether the command handler
executes `break` (only TEARDOWN does).
-/

inductive Effect where
  | sendResp : List Char → Effect
  | joinStreamer : Nat → Effect
  | closeConn : Effect
deriving DecidableEq

structure SState where
  streaming_active : Bool
  running_streamers : Nat
deriving DecidableEq

def TEARDOWN_JOIN_TIMEOUT : Nat := 5

/-- Module-load state: `streaming_active = False`, no streamer thread. -/
def init_state : SState := ⟨false, 0⟩

/-- One iteration of the request loop of `handle_rtsp_client` for a
received chunk `data` (lines 145-237): the `if/elif` dispatch by
substring containment, in source order. -/
def handle_request (st : SState) (data : List Char) : SState × List Effect × Bool :=
  let cseq := parse_cseq data
  if containsSub ("SETUP".toList) data then
    (st, [Effect.sendResp (setup_response cseq)], false)
  else if containsSub ("PLAY".toList) data then
    if st.streaming_active = false then
      ({ streaming_active := true, running_streamers := st.running_streamers + 1 },
        [Effect.sendResp (play_response cseq)], false)
    else
      (st, [Effect.sendResp (play_response cseq)], false)
  else if containsSub ("TEARDOWN".toList) data then
    ({ streaming_active := false, running_streamers := 0 },
      (if 0 < st.running_streamers then
        [Effect.joinStreamer TEARDOWN_JOIN_TIMEOUT,
          Effect.sendResp (teardown_response cseq)]
      else [Effect.sendResp (teardown_response cseq)]), true)
  else if containsSub ("DESCRIBE".toList) data then
    (st, [Effect.sendResp (describe_response cseq)], false)
  else if containsSub ("OPTIONS".toList) data then
    (st, [Effect.sendResp (options_response cseq)], false)
  else
    (st, [Effect.sendResp (bad_request_response cseq)], false)

/-- The receive loop of `handle_rtsp_client` (lines 137-237) over the
successive chunks returned by `recv`; an empty chunk is a peer close
(`if not data: break`). -/
def handle_loop : SState → List (List Char) → SState × List Effect
  | st, [] => (st, [])
  | st, data :: rest =>
    if data = [] then (st, [])
    else
      let step := handle_request st data
      if step.2.2 then (step.1, step.2.1)
      else
        let cont := handle_loop step.1 rest
        (cont.1, step.2.1 ++ cont.2)

/-- `handle_rtsp_client` including the `finally: client_socket.close()`
(lines 243-247). -/
def handle_rtsp_client (st : SState) (msgs : List (List Char)) : SState × List Effect :=
  let run := handle_loop st msgs
  (run.1, run.2 ++ [Effect.closeConn])

/-! ## Interleaved PLAY handlers

`handle_rtsp_client` runs in one thread per accepted connection (lines
265-267), and the PLAY branch's check-and-set of the shared
`streaming_active` flag (lines 163-170) takes no lock: the check
`if not streaming_active:` (line 164) and the assignment
`streaming_active = True` with `rtp_thread.start()` (lines 167-170) are
separate interpreter steps with a `print` between them, so the steps of
two handler threads can interleave inside the branch.
-/

/-- One handler thread's position inside the PLAY branch: `ready` —
about to evaluate `if not streaming_active:` (line 164); `armed` — the
check observed `False`, the lines 165-170 block has not yet run;
`finished` — past the branch. -/
inductive PlayPc where
  | ready
  | armed
  | finished
deriving DecidableEq

/-- One atomic step of a handler thread inside the PLAY branch: either
the flag read of line 164, or the lines 167-170 block (set the flag,
start one streamer thread). -/
def play_micro : SState × PlayPc → SState × PlayPc
  | (sh, PlayPc.ready) =>
      if sh.streaming_active = false then (sh, PlayPc.armed) else (sh, PlayPc.finished)
  | (sh, PlayPc.armed) =>
      ({ streaming_active := true, running_streamers := sh.running_streamers + 1 },
        PlayPc.finished)
  | (sh, PlayPc.finished) => (sh, PlayPc.finished)

/-- Two connection handler threads over the shared streaming state. -/
structure RaceState where
  shared : SState
  pc1 : PlayPc
  pc2 : PlayPc
deriving DecidableEq

/-- Scheduler step: `true` runs one step of the first handler thread,
`false` one step of the second. -/
def race_step (b : Bool) (rs : RaceState) : RaceState :=
  if b then
    let r := play_micro (rs.shared, rs.pc1)
    ⟨r.1, r.2, rs.pc2⟩
  else
    let r := play_micro (rs.shared, rs.pc2)
    ⟨r.1, rs.pc1, r.2⟩

/-- Run a schedule of interleaved handler steps. -/
def run_race : List Bool → RaceState → RaceState
  | [], rs => rs
  | b :: bs, rs => run_race bs (race_step b rs)

/-- Byte count of one character under the UTF-8 encoding used by
`sendall(....encode('utf-8'))`. -/
def utf8Bytes (c : Char) : Nat :=
  if c.toNat < 128 then 1 else if c.toNat < 2048 then 2 else if c.toNat < 65536 then 3 else 4

/-! ## Unfolding lemmas for the packetization loop -/

lemma fragment_nil (M s t r : Nat) : fragment M [] s t r = ([], s) := by
  unfold fragment
  simp

lemma fragment_cons (M : Nat) (data : List Nat) (hd : data ≠ []) (hM : RTP_HEADER_SIZE < M)
    (s t r : Nat) :
    fragment M data s t r =
      (⟨s, t, r, data.take (min data.length (M - RTP_HEADER_SIZE))⟩ ::
        (fragment M (data.drop (min data.length (M - RTP_HEADER_SIZE))) (next_seq s) t r).1,
       (fragment M (data.drop (min data.length (M - RTP_HEADER_SIZE))) (next_seq s) t r).2) := by
  conv_lhs => unfold fragment
  have hlen : 0 < data.length := List.length_pos.mpr hd
  have hps : ¬ (min (data.length : Int) ((M : Int) - (RTP_HEADER_SIZE : Int)) ≤ 0) := by
    simp only [RTP_HEADER_SIZE] at *
    omega
  have hn : (min (data.length : Int) ((M : Int) - (RTP_HEADER_SIZE : Int))).toNat
      = min data.length (M - RTP_HEADER_SIZE) := by
    simp only [RTP_HEADER_SIZE] at *
    omega
  simp [hd, hps, hn]

lemma fragment_small_max (M : Nat) (data : List Nat) (s t r : Nat)
    (hM : M ≤ RTP_HEADER_SIZE) : fragment M data s t r = ([], s) := by
  by_cases hd : data = []
  · subst hd
    exact fragment_nil M s t r
  · conv_lhs => unfold fragment
    have hps : min (data.length : Int) ((M : Int) - (RTP_HEADER_SIZE : Int)) ≤ 0 := by
      simp only [RTP_HEADER_SIZE] at *
      omega
    simp [hd, hps]

lemma create_rtp_header_length (s t r : Nat) : (create_rtp_header s t r).length = 12 := rfl

lemma datagram_bytes_length (d : Datagram) :
    d.bytes.length = RTP_HEADER_SIZE + d.payload.length := by
  simp [Datagram.bytes, create_rtp_header, pack16, pack32, RTP_HEADER_SIZE]
  omega

/-! ## Core lemmas about the packetization loop -/

lemma frag_join (M : Nat) (hM : RTP_HEADER_SIZE < M) (data : List Nat) (s t r : Nat) :
    (((fragment M data s t r).1).map Datagram.payload).flatten = data := by
  by_cases hd : data = []
  · subst hd
    rw [fragment_nil]
    rfl
  · rw [fragment_cons M data hd hM]
    simp only [List.map_cons, List.flatten_cons]
    rw [frag_join M hM (data.drop (min data.length (M - RTP_HEADER_SIZE))) (next_seq s) t r]
    exact List.take_append_drop _ data
termination_by data.length
decreasing_by
  have hlen : 0 < data.length := List.length_pos.mpr hd
  simp only [List.length_drop, RTP_HEADER_SIZE] at *
  omega

lemma frag_count (data : List Nat) (s t r : Nat) :
    (fragment 1400 data s t r).1.length = (data.length + 1387) / 1388 := by
  by_cases hd : data = []
  · subst hd
    rw [fragment_nil]
    rfl
  · rw [fragment_cons 1400 data hd (by decide)]
    simp only [List.length_cons]
    rw [frag_count (data.drop (min data.length (1400 - RTP_HEADER_SIZE))) (next_seq s) t r]
    simp only [List.length_drop, RTP_HEADER_SIZE]
    have hlen : 0 < data.length := List.length_pos.mpr hd
    rcases le_or_lt data.length 1388 with h | h
    · rw [min_eq_left (by omega : data.length ≤ 1400 - 12)]
      rw [Nat.sub_self]
      norm_num
      symm
      apply Nat.div_eq_of_lt_le <;> omega
    · rw [min_eq_right (by omega : 1400 - 12 ≤ data.length)]
      have h2 : data.length - (1400 - 12) + 1387 = data.length - 1 := by omega
      have h3 : data.length + 1387 = (data.length - 1) + 1388 := by omega
      rw [h2, h3, Nat.add_div_right _ (by norm_num)]
termination_by data.length
decreasing_by
  have hlen : 0 < data.length := List.length_pos.mpr hd
  simp only [List.length_drop, RTP_HEADER_SIZE] at *
  omega

lemma frag_size (M : Nat) (hM : RTP_HEADER_SIZE < M) (data : List Nat) (s t r : Nat) :
    ∀ d ∈ (fragment M data s t r).1, d.bytes.length ≤ M := by
  by_cases hd : data = []
  · subst hd
    rw [fragment_nil]
    intro d hmem
    simp at hmem
  · rw [fragment_cons M data hd hM]
    intro d hmem
    simp only [List.mem_cons] at hmem
    rcases hmem with rfl | hmem
    · rw [datagram_bytes_length]
      simp only [List.length_take, RTP_HEADER_SIZE] at *
      omega
    · exact frag_size M hM (data.drop (min data.length (M - RTP_HEADER_SIZE)))
        (next_seq s) t r d hmem
termination_by data.length
decreasing_by
  have hlen : 0 < data.length := List.length_pos.mpr hd
  simp only [List.length_drop, RTP_HEADER_SIZE] at *
  omega

lemma next_seq_eq (s : Nat) (hs : s < 65536) : next_seq s = (s + 1) % 65536 := by
  unfold next_seq
  split <;> omega

lemma next_seq_lt (s : Nat) : next_seq s < 65536 := by
  unfold next_seq
  split <;> omega

lemma frag_seq (M : Nat) (hM : RTP_HEADER_SIZE < M) (data : List Nat) (s t r : Nat)
    (hs : s < 65536) :
    ∀ i, (hi : i < (fragment M data s t r).1.length) →
      ((fragment M data s t r).1)[i].seq = (s + i) % 65536 := by
  by_cases hd : data = []
  · subst hd
    rw [fragment_nil]
    intro i hi
    simp at hi
  · rw [fragment_cons M data hd hM]
    intro i hi
    cases i with
    | zero =>
        simpa using (Nat.mod_eq_of_lt hs).symm
    | succ j =>
        simp only [List.getElem_cons_succ]
        simp only [List.length_cons] at hi
        rw [frag_seq M hM (data.drop (min data.length (M - RTP_HEADER_SIZE)))
          (next_seq s) t r (next_seq_lt s) j (by omega)]
        rw [next_seq_eq s hs]
        rw [Nat.mod_add_mod]
        congr 1
        omega
termination_by data.length
decreasing_by
  have hlen : 0 < data.length := List.length_pos.mpr hd
  simp only [List.length_drop, RTP_HEADER_SIZE] at *
  omega

lemma frag_final (M : Nat) (data : List Nat) (s t r : Nat) (hs : s < 65536) :
    (fragment M data s t r).2 = (s + (fragment M data s t r).1.length) % 65536 := by
  rcases le_or_lt M RTP_HEADER_SIZE with hM | hM
  · rw [fragment_small_max M data s t r hM]
    simpa using (Nat.mod_eq_of_lt hs).symm
  · by_cases hd : data = []
    · subst hd
      rw [fragment_nil]
      simpa using (Nat.mod_eq_of_lt hs).symm
    · rw [fragment_cons M data hd hM]
      simp only [List.length_cons]
      rw [frag_final M (data.drop (min data.length (M - RTP_HEADER_SIZE)))
        (next_seq s) t r (next_seq_lt s)]
      rw [next_seq_eq s hs]
      rw [Nat.mod_add_mod]
      congr 1
      omega
termination_by data.length
decreasing_by
  have hlen : 0 < data.length := List.length_pos.mpr hd
  simp only [List.length_drop, RTP_HEADER_SIZE] at *
  omega

lemma frag_final_lt (M : Nat) (data : List Nat) (s t r : Nat) (hs : s < 65536) :
    (fragment M data s t r).2 < 65536 := by
  rw [frag_final M data s t r hs]
  exact Nat.mod_lt _ (by norm_num)

/-! ## Unfolding lemmas for the capture loop -/

lemma streamLoop_stop (A : Nat → Bool) (r : Nat) (frames : List (List Nat × Nat))
    (i s : Nat) (hA : A i = false) : streamLoop A r frames i s = [] := by
  unfold streamLoop
  simp [hA]

lemma streamLoop_nil (A : Nat → Bool) (r : Nat) (i s : Nat) :
    streamLoop A r [] i s = [] := by
  unfold streamLoop
  split <;> rfl

lemma streamLoop_cons (A : Nat → Bool) (r : Nat) (jpeg_data : List Nat) (timestamp : Nat)
    (rest : List (List Nat × Nat)) (i s : Nat) (hA : A i = true) :
    streamLoop A r ((jpeg_data, timestamp) :: rest) i s =
      (fragment MAX_PACKET_SIZE jpeg_data s timestamp r).1 ++
        streamLoop A r rest (i + 1) (fragment MAX_PACKET_SIZE jpeg_data s timestamp r).2 := by
  conv_lhs => unfold streamLoop
  simp [hA]

lemma streamLoop_seq (A : Nat → Bool) (r : Nat) (frames : List (List Nat × Nat)) :
    ∀ i s, s < 65536 →
      ∀ j, (hj : j < (streamLoop A r frames i s).length) →
        ((streamLoop A r frames i s)[j]).seq = (s + j) % 65536 := by
  induction frames with
  | nil =>
      intro i s hs j hj
      rw [streamLoop_nil] at hj
      simp at hj
  | cons f rest ih =>
      intro i s hs j hj
      by_cases hA : A i = false
      · rw [streamLoop_stop A r _ i s hA] at hj
        simp at hj
      · have hA' : A i = true := by
          revert hA
          cases A i <;> simp
        obtain ⟨jpeg_data, timestamp⟩ := f
        simp only [streamLoop_cons A r jpeg_data timestamp rest i s hA'] at hj ⊢
        rcases lt_or_ge j (fragment MAX_PACKET_SIZE jpeg_data s timestamp r).1.length
          with hlt | hge
        · rw [List.getElem_append_left hlt]
          exact frag_seq MAX_PACKET_SIZE (by decide) jpeg_data s timestamp r hs j hlt
        · rw [List.getElem_append_right hge]
          have hlen : j - (fragment MAX_PACKET_SIZE jpeg_data s timestamp r).1.length <
              (streamLoop A r rest (i + 1)
                (fragment MAX_PACKET_SIZE jpeg_data s timestamp r).2).length := by
            simp only [List.length_append] at hj
            omega
          rw [ih (i + 1) (fragment MAX_PACKET_SIZE jpeg_data s timestamp r).2
            (frag_final_lt MAX_PACKET_SIZE jpeg_data s timestamp r hs) _ hlen]
          rw [frag_final MAX_PACKET_SIZE jpeg_data s timestamp r hs]
          rw [Nat.mod_add_mod]
          congr 1
          omega

/-! ## Helper lemmas about the text model -/

lemma startsWithL_nil (s : List Char) : startsWithL s [] = true := by
  cases s <;> rfl

lemma startsWithL_self_append (p s : List Char) : startsWithL (p ++ s) p = true := by
  induction p with
  | nil => exact startsWithL_nil s
  | cons c cs ih => simp [startsWithL, ih]

lemma containsSub_self_append (p b : List Char) : containsSub p (p ++ b) = true := by
  cases p with
  | nil => cases b with
    | nil => rfl
    | cons c r => simp [containsSub, startsWithL_nil]
  | cons c cs =>
      have h := startsWithL_self_append (c :: cs) b
      simp only [List.cons_append] at h
      simp [containsSub, h]

lemma containsSub_append_right (nd a b : List Char) (h : containsSub nd b = true) :
    containsSub nd (a ++ b) = true := by
  induction a with
  | nil => simpa using h
  | cons c a' ih => simp [containsSub, ih]

lemma echo_cseq (pre c post : List Char) :
    containsSub ("CSeq: ".toList ++ c) (pre ++ "CSeq: ".toList ++ c ++ post) = true := by
  have hshape : pre ++ "CSeq: ".toList ++ c ++ post
      = pre ++ (("CSeq: ".toList ++ c) ++ post) := by
    simp [List.append_assoc]
  rw [hshape]
  exact containsSub_append_right _ pre _ (containsSub_self_append _ _)

lemma startsWith200 (c post : List Char) :
    startsWithL ("RTSP/1.0 200 OK\r\nCSeq: ".toList ++ c ++ post)
      ("RTSP/1.0 200 OK".toList) = true := by
  have hshape : "RTSP/1.0 200 OK\r\nCSeq: ".toList ++ c ++ post
      = "RTSP/1.0 200 OK".toList ++ ("\r\nCSeq: ".toList ++ c ++ post) := by
    simp [List.append_assoc]
  rw [hshape]
  exact startsWithL_self_append _ _

lemma setup_response_echo (c : List Char) :
    containsSub ("CSeq: ".toList ++ c) (setup_response c) = true := by
  rw [setup_response,
    show "RTSP/1.0 200 OK\r\nCSeq: ".toList
      = "RTSP/1.0 200 OK\r\n".toList ++ "CSeq: ".toList from rfl]
  exact echo_cseq _ _ _

lemma play_response_echo (c : List Char) :
    containsSub ("CSeq: ".toList ++ c) (play_response c) = true := by
  rw [play_response,
    show "RTSP/1.0 200 OK\r\nCSeq: ".toList
      = "RTSP/1.0 200 OK\r\n".toList ++ "CSeq: ".toList from rfl]
  exact echo_cseq _ _ _

lemma teardown_response_echo (c : List Char) :
    containsSub ("CSeq: ".toList ++ c) (teardown_response c) = true := by
  rw [teardown_response,
    show "RTSP/1.0 200 OK\r\nCSeq: ".toList
      = "RTSP/1.0 200 OK\r\n".toList ++ "CSeq: ".toList from rfl]
  exact echo_cseq _ _ _

lemma describe_response_echo (c : List Char) :
    containsSub ("CSeq: ".toList ++ c) (describe_response c) = true := by
  rw [describe_response,
    show "RTSP/1.0 200 OK\r\nCSeq: ".toList
      = "RTSP/1.0 200 OK\r\n".toList ++ "CSeq: ".toList from rfl]
  exact echo_cseq _ _ _

lemma options_response_echo (c : List Char) :
    containsSub ("CSeq: ".toList ++ c) (options_response c) = true := by
  rw [options_response,
    show "RTSP/1.0 200 OK\r\nCSeq: ".toList
      = "RTSP/1.0 200 OK\r\n".toList ++ "CSeq: ".toList from rfl]
  exact echo_cseq _ _ _

lemma bad_request_response_echo (c : List Char) :
    containsSub ("CSeq: ".toList ++ c) (bad_request_response c) = true := by
  rw [bad_request_response,
    show "RTSP/1.0 400 Bad Request\r\nCSeq: ".toList
      = "RTSP/1.0 400 Bad Request\r\n".toList ++ "CSeq: ".toList from rfl]
  exact echo_cseq _ _ _

lemma play_response_ok (c : List Char) :
    startsWithL (play_response c) ("RTSP/1.0 200 OK".toList) = true := by
  rw [play_response]
  exact startsWith200 _ _

lemma play_response_session (c : List Char) :
    containsSub ("Session: 12345678".toList) (play_response c) = true := by
  rw [play_response]
  exact containsSub_append_right _ _ _ (by decide)

lemma teardown_response_ok (c : List Char) :
    startsWithL (teardown_response c) ("RTSP/1.0 200 OK".toList) = true := by
  rw [teardown_response]
  exact startsWith200 _ _

lemma describe_response_ok (c : List Char) :
    startsWithL (describe_response c) ("RTSP/1.0 200 OK".toList) = true := by
  rw [describe_response]
  exact startsWith200 _ _

/-! ## Lemmas about CSeq parsing -/

lemma splitColon_no_colon (t : List Char) (h : containsSub [':'] t = false) :
    splitColon t = [t] := by
  induction t with
  | nil => rfl
  | cons c r ih =>
      simp only [containsSub, startsWithL, Bool.or_eq_false_iff, Bool.and_eq_false_imp] at h
      have hc : ¬ (c = ':') := by
        intro hcc
        have := h.1
        rw [hcc] at this
        simp [startsWithL_nil] at this
      have hr := ih h.2
      simp [splitColon, hc, hr]

lemma find_cseq_no_cseq (ls : List (List Char))
    (h : ∀ l ∈ ls, startsWithL l ("CSeq:".toList) = false) :
    find_cseq ls = "1".toList := by
  induction ls with
  | nil => rfl
  | cons l rest ih =>
      have h1 := h l (by simp)
      simp only [find_cseq, h1]
      simp only [Bool.false_eq_true, if_false]
      exact ih (fun x hx => h x (by simp [hx]))

lemma find_cseq_found (pre : List (List Char)) (t : List Char) (rest : List (List Char))
    (hpre : ∀ l ∈ pre, startsWithL l ("CSeq:".toList) = false)
    (hcolon : containsSub [':'] t = false)
    (hlead : t.dropWhile isPySpace = t)
    (htrail : t.reverse.dropWhile isPySpace = t.reverse) :
    find_cseq (pre ++ ("CSeq: ".toList ++ t) :: rest) = t := by
  induction pre with
  | nil =>
      simp only [List.nil_append]
      have hstart : startsWithL ("CSeq: ".toList ++ t) ("CSeq:".toList) = true := by
        rw [show "CSeq: ".toList ++ t = "CSeq:".toList ++ (' ' :: t) from rfl]
        exact startsWithL_self_append _ _
      have hsplit : splitColon ("CSeq: ".toList ++ t) = [['C', 'S', 'e', 'q'], ' ' :: t] := by
        rw [show "CSeq: ".toList ++ t = 'C' :: 'S' :: 'e' :: 'q' :: ':' :: ' ' :: t from rfl]
        have hsub : splitColon t = [t] := splitColon_no_colon t hcolon
        simp [splitColon, hsub]
      simp only [find_cseq, hstart, if_true, hsplit]
      show strip (' ' :: t) = t
      unfold strip
      have hsp : isPySpace ' ' = true := by decide
      rw [show List.dropWhile isPySpace (' ' :: t) = List.dropWhile isPySpace t by
        simp [List.dropWhile, hsp]]
      rw [hlead, htrail, List.reverse_reverse]
  | cons l pre' ih =>
      have h1 := hpre l (by simp)
      simp only [List.cons_append, find_cseq, h1]
      simp only [Bool.false_eq_true, if_false]
      exact ih (fun x hx => hpre x (by simp [hx]))

/-! ## Dispatch lemmas for `handle_request` -/

lemma handle_setup (st : SState) (data : List Char)
    (h1 : containsSub ("SETUP".toList) data = true) :
    handle_request st data = (st, [Effect.sendResp (setup_response (parse_cseq data))], false) := by
  unfold handle_request
  simp only [h1]
  simp

lemma handle_play (st : SState) (data : List Char)
    (h1 : containsSub ("SETUP".toList) data = false)
    (h2 : containsSub ("PLAY".toList) data = true) :
    handle_request st data =
      ((if st.streaming_active = false then
          ({ streaming_active := true, running_streamers := st.running_streamers + 1 } : SState)
        else st),
        [Effect.sendResp (play_response (parse_cseq data))], false) := by
  unfold handle_request
  by_cases hs : st.streaming_active = false <;>
    · simp only [h1, h2, hs]
      simp [hs]

lemma handle_teardown (st : SState) (data : List Char)
    (h1 : containsSub ("SETUP".toList) data = false)
    (h2 : containsSub ("PLAY".toList) data = false)
    (h3 : containsSub ("TEARDOWN".toList) data = true) :
    handle_request st data =
      (⟨false, 0⟩,
        (if 0 < st.running_streamers then
          [Effect.joinStreamer TEARDOWN_JOIN_TIMEOUT,
            Effect.sendResp (teardown_response (parse_cseq data))]
        else [Effect.sendResp (teardown_response (parse_cseq data))]), true) := by
  unfold handle_request
  simp only [h1, h2, h3]
  simp

lemma handle_describe (st : SState) (data : List Char)
    (h1 : containsSub ("SETUP".toList) data = false)
    (h2 : containsSub ("PLAY".toList) data = false)
    (h3 : containsSub ("TEARDOWN".toList) data = false)
    (h4 : containsSub ("DESCRIBE".toList) data = true) :
    handle_request st data =
      (st, [Effect.sendResp (describe_response (parse_cseq data))], false) := by
  unfold handle_request
  simp only [h1, h2, h3, h4]
  simp

lemma handle_options (st : SState) (data : List Char)
    (h1 : containsSub ("SETUP".toList) data = false)
    (h2 : containsSub ("PLAY".toList) data = false)
    (h3 : containsSub ("TEARDOWN".toList) data = false)
    (h4 : containsSub ("DESCRIBE".toList) data = false)
    (h5 : containsSub ("OPTIONS".toList) data = true) :
    handle_request st data =
      (st, [Effect.sendResp (options_response (parse_cseq data))], false) := by
  unfold handle_request
  simp only [h1, h2, h3, h4, h5]
  simp

lemma handle_unknown (st : SState) (data : List Char)
    (h1 : containsSub ("SETUP".toList) data = false)
    (h2 : containsSub ("PLAY".toList) data = false)
    (h3 : containsSub ("TEARDOWN".toList) data = false)
    (h4 : containsSub ("DESCRIBE".toList) data = false)
    (h5 : containsSub ("OPTIONS".toList) data = false) :
    handle_request st data =
      (st, [Effect.sendResp (bad_request_response (parse_cseq data))], false) := by
  unfold handle_request
  simp only [h1, h2, h3, h4, h5]
  simp

/-- Every response the dispatcher can emit carries the parsed CSeq token. -/
lemma handle_request_echo (st : SState) (data resp : List Char)
    (h : Effect.sendResp resp ∈ (handle_request st data).2.1) :
    containsSub ("CSeq: ".toList ++ parse_cseq data) resp = true := by
  unfold handle_request at h
  split_ifs at h <;> simp at h <;> subst h
  · exact setup_response_echo _
  · exact play_response_echo _
  · exact play_response_echo _
  · exact teardown_response_echo _
  · exact teardown_response_echo _
  · exact describe_response_echo _
  · exact options_response_echo _
  · exact bad_request_response_echo _

/-- The request loop executes `break` only for a TEARDOWN command. -/
lemma handle_request_break (st : SState) (data : List Char)
    (h : (handle_request st data).2.2 = true) :
    containsSub ("TEARDOWN".toList) data = true := by
  unfold handle_request at h
  split_ifs at h with h1 h2 h3 <;> first | exact h3 | simp_all

/-! ## Auxiliary definitions and evaluations used by the claims -/


lemma frag_eval_123 (r : Nat) :
    fragment 1400 [1, 2, 3] 0 0 r = ([⟨0, 0, r, [1, 2, 3]⟩], 1) := by
  rw [fragment_cons 1400 [1, 2, 3] (by decide) (by decide)]
  simp [RTP_HEADER_SIZE, fragment_nil, next_seq]

lemma rtp_eval_example :
    (rtp_stream_video true (fun _ => true) [([1, 2, 3], 0)]).1
      = [⟨0, 0, 0x12345678, [1, 2, 3]⟩] := by
  unfold rtp_stream_video
  simp only [Bool.true_eq_false, if_false]
  rw [streamLoop_cons _ _ _ _ _ _ _ rfl]
  simp only [MAX_PACKET_SIZE, frag_eval_123]
  rw [streamLoop_nil]
  simp

lemma handle_loop_cons_nobreak (st : SState) (data : List Char) (rest : List (List Char))
    (hne : data ≠ []) (hbrk : (handle_request st data).2.2 = false) :
    handle_loop st (data :: rest)
      = ((handle_loop (handle_request st data).1 rest).1,
         (handle_request st data).2.1 ++ (handle_loop (handle_request st data).1 rest).2) := by
  conv_lhs => unfold handle_loop
  simp [hne, hbrk]

/-! ## The claims -/

/-- C1: for every payload of length `L`, with the configured
`MAX_PACKET_SIZE = 1400` and `RTP_HEADER_SIZE = 12`, the packetization
loop emits exactly `⌈L / 1388⌉ = (L + 1387) / 1388` datagrams, each of
total wire size at most 1400 bytes, whose payload slices concatenate in
emission order to exactly the original payload; an empty payload yields
zero datagrams. -/
theorem spec_C1_framing (payload : List Nat) (seq ts ssrc : Nat) :
    (fragment MAX_PACKET_SIZE payload seq ts ssrc).1.length
        = (payload.length + 1387) / 1388
    ∧ (∀ d ∈ (fragment MAX_PACKET_SIZE payload seq ts ssrc).1,
        d.bytes.length ≤ MAX_PACKET_SIZE)
    ∧ (((fragment MAX_PACKET_SIZE payload seq ts ssrc).1).map Datagram.payload).flatten
        = payload
    ∧ (payload = [] → (fragment MAX_PACKET_SIZE payload seq ts ssrc).1 = []) := by
  refine ⟨?_, ?_, ?_, ?_⟩
  · simp only [MAX_PACKET_SIZE]
    exact frag_count payload seq ts ssrc
  · simp only [MAX_PACKET_SIZE]
    exact frag_size 1400 (by decide) payload seq ts ssrc
  · simp only [MAX_PACKET_SIZE]
    exact frag_join 1400 (by decide) payload seq ts ssrc
  · intro h
    subst h
    simp only [MAX_PACKET_SIZE]
    rw [fragment_nil]

/-- C1 witness: at the empty payload the loop emits zero datagrams. -/
theorem spec_C1_framing_witness :
    (fragment MAX_PACKET_SIZE [] 0 0 0).1 = [] :=
  (spec_C1_framing [] 0 0 0).2.2.2 rfl

/-- C2: the code violates the claimed invariant.  With both connection
handler threads idle-side of the PLAY branch and the shared state
initial, the interleaving in which both threads evaluate
`if not streaming_active:` (both observe `False`, steps 1 and 2) before
either runs `streaming_active = True; rtp_thread.start()` (steps 3 and
4) ends with two streamer threads running at the same instant — the
second PLAY was not a no-op.  The serialized schedule of the same four
steps ends with exactly one streamer, showing the violation comes from
the unlocked interleaving, not from the handlers themselves. -/
theorem spec_C2_play_race :
    (run_race [true, false, true, false]
        ⟨init_state, PlayPc.ready, PlayPc.ready⟩).shared.running_streamers = 2
    ∧ (run_race [true, false, true, false]
        ⟨init_state, PlayPc.ready, PlayPc.ready⟩).pc1 = PlayPc.finished
    ∧ (run_race [true, false, true, false]
        ⟨init_state, PlayPc.ready, PlayPc.ready⟩).pc2 = PlayPc.finished
    ∧ (run_race [true, true, false, false]
        ⟨init_state, PlayPc.ready, PlayPc.ready⟩).shared.running_streamers = 1 := by
  decide

/-- C3: within one streaming job the `j`-th emitted datagram carries
sequence number `j % 65536`: the counter starts at 0 for a brand-new job
(line 80), increases by exactly 1 per datagram with no gaps, and wraps
from 65535 back to 0 (lines 115-117). -/
theorem spec_C3_sequence (activeAt : Nat → Bool) (frames : List (List Nat × Nat))
    (j : Nat) (hj : j < ((rtp_stream_video true activeAt frames).1).length) :
    (((rtp_stream_video true activeAt frames).1).getD j ⟨0, 0, 0, []⟩).seq = j % 65536 := by
  unfold rtp_stream_video at hj ⊢
  simp only [Bool.true_eq_false, if_false] at hj ⊢
  rw [List.getD_eq_getElem _ _ hj]
  have := streamLoop_seq activeAt 0x12345678 frames 0 0 (by norm_num) j hj
  simpa using this

/-- C3 witness: the first datagram of a fresh job carries sequence number 0. -/
theorem spec_C3_sequence_witness :
    (((rtp_stream_video true (fun _ => true) [([1, 2, 3], 0)]).1).getD 0 ⟨0, 0, 0, []⟩).seq
      = 0 % 65536 :=
  spec_C3_sequence (fun _ => true) [([1, 2, 3], 0)] 0 (by rw [rtp_eval_example]; decide)

/-- C4: processing a TEARDOWN command clears the `streaming_active`
flag, joins the streamer thread (when one exists) with the bounded
timeout of `TEARDOWN_JOIN_TIMEOUT = 5` time units, sends the 200 OK
response echoing the CSeq, and breaks out of the request loop so that
the connection is closed directly after the response; and a capture
loop that observes the cleared stop flag emits no further datagrams. -/
theorem spec_C4_teardown (st : SState) (data : List Char)
    (h1 : containsSub ("SETUP".toList) data = false)
    (h2 : containsSub ("PLAY".toList) data = false)
    (h3 : containsSub ("TEARDOWN".toList) data = true) :
    ((handle_request st data).1.streaming_active = false
      ∧ (handle_request st data).2.2 = true)
    ∧ TEARDOWN_JOIN_TIMEOUT = 5
    ∧ startsWithL (teardown_response (parse_cseq data)) ("RTSP/1.0 200 OK".toList) = true
    ∧ (handle_rtsp_client st [data]).2
        = (if 0 < st.running_streamers then
            [Effect.joinStreamer TEARDOWN_JOIN_TIMEOUT,
              Effect.sendResp (teardown_response (parse_cseq data)), Effect.closeConn]
          else [Effect.sendResp (teardown_response (parse_cseq data)), Effect.closeConn])
    ∧ (∀ (activeAt : Nat → Bool) (frames : List (List Nat × Nat)) (i seq ssrc : Nat),
        activeAt i = false → streamLoop activeAt ssrc frames i seq = []) := by
  have hne : data ≠ [] := by
    intro h
    subst h
    simp [containsSub] at h3
  refine ⟨⟨?_, ?_⟩, rfl, teardown_response_ok _, ?_, ?_⟩
  · rw [handle_teardown st data h1 h2 h3]
  · rw [handle_teardown st data h1 h2 h3]
  · unfold handle_rtsp_client handle_loop
    simp only [hne, if_false]
    rw [handle_teardown st data h1 h2 h3]
    by_cases hrs : 0 < st.running_streamers <;> simp [hrs]
  · intro activeAt frames i seq ssrc hA
    exact streamLoop_stop activeAt ssrc frames i seq hA

/-- C4 witness: a concrete TEARDOWN on a running job. -/
theorem spec_C4_teardown_witness :
    (handle_request ⟨true, 1⟩
        ("TEARDOWN rtsp://127.0.0.1:554/stream RTSP/1.0\r\nCSeq: 3\r\n\r\n".toList)).1.streaming_active
      = false :=
  (spec_C4_teardown ⟨true, 1⟩ _ (by decide) (by decide) (by decide)).1.1

/-- C5: the claimed startup `ConfigurationError` does not exist in the
code.  When the configured maximum datagram size is at most the header
size, the packetization loop silently takes the `payload_size <= 0 :
break` path at runtime and emits nothing, for every payload, leaving the
sequence counter untouched — no error is reported anywhere. -/
theorem spec_C5_silent_nothing (M : Nat) (hM : M ≤ RTP_HEADER_SIZE)
    (payload : List Nat) (seq ts ssrc : Nat) :
    fragment M payload seq ts ssrc = ([], seq) :=
  fragment_small_max M payload seq ts ssrc hM

/-- C5 witness: with max size 12 (= header size) a nonempty frame is
silently dropped. -/
theorem spec_C5_silent_nothing_witness :
    fragment 12 [1, 2, 3] 0 0 0 = ([], 0) :=
  spec_C5_silent_nothing 12 (by decide) [1, 2, 3] 0 0 0

/-- C6 counterexample: the request below carries the header line
`CSeq: 1:2`, but `line.split(":")[1].strip()` keeps only the text
between the first and second colon, so the response echoes `1` and the
token `1:2` appears nowhere in it — the response does not echo the
token verbatim. -/
theorem spec_C6_cseq_cex :
    ("CSeq: 1:2".toList)
        ∈ splitCRLF ("OPTIONS rtsp://127.0.0.1:554/stream RTSP/1.0\r\nCSeq: 1:2\r\n\r\n".toList)
    ∧ handle_request init_state
        ("OPTIONS rtsp://127.0.0.1:554/stream RTSP/1.0\r\nCSeq: 1:2\r\n\r\n".toList)
      = (init_state, [Effect.sendResp (options_response ("1".toList))], false)
    ∧ containsSub ("1:2".toList) (options_response ("1".toList)) = false :=
  ⟨by decide, by decide, by decide⟩

/-- C6 (amended): every response emitted for a request echoes
`CSeq: <token>` where the token is the one parsed by the source — the
text of the first `CSeq:`-rooted line between its first and second
colon, stripped of surrounding whitespace.  Hence for tokens that
contain no colon and carry no surrounding whitespace the identical
token is echoed verbatim, and for requests with no `CSeq:` line the
default `"1"` is substituted. -/
theorem spec_C6_cseq_echo :
    (∀ (st : SState) (data resp : List Char),
        Effect.sendResp resp ∈ (handle_request st data).2.1 →
        containsSub ("CSeq: ".toList ++ parse_cseq data) resp = true)
    ∧ (∀ data : List Char,
        (∀ l ∈ splitCRLF data, startsWithL l ("CSeq:".toList) = false) →
        parse_cseq data = "1".toList)
    ∧ (∀ (pre : List (List Char)) (t : List Char) (rest : List (List Char)),
        (∀ l ∈ pre, startsWithL l ("CSeq:".toList) = false) →
        containsSub [':'] t = false →
        t.dropWhile isPySpace = t →
        t.reverse.dropWhile isPySpace = t.reverse →
        find_cseq (pre ++ ("CSeq: ".toList ++ t) :: rest) = t) := by
  refine ⟨handle_request_echo, ?_, find_cseq_found⟩
  intro data h
  exact find_cseq_no_cseq (splitCRLF data) h

/-- C6 witness: a colon-free token is extracted verbatim. -/
theorem spec_C6_cseq_echo_witness :
    find_cseq ([] ++ ("CSeq: ".toList ++ "42".toList) :: []) = "42".toList :=
  spec_C6_cseq_echo.2.2 [] ("42".toList) [] (by decide) (by decide) (by decide) (by decide)

/-- C7: a nonempty request containing none of the five keywords gets the
400 Bad Request response, leaves the state unchanged and does not break
the loop; the loop then processes the remaining requests exactly as it
would have without the bad one, so a subsequent valid request is still
served; and the loop breaks only for requests containing TEARDOWN (peer
close, the empty chunk, is the loop's own exit). -/
theorem spec_C7_unknown_keeps_open :
    (∀ (st : SState) (data : List Char), data ≠ [] →
        containsSub ("SETUP".toList) data = false →
        containsSub ("PLAY".toList) data = false →
        containsSub ("TEARDOWN".toList) data = false →
        containsSub ("DESCRIBE".toList) data = false →
        containsSub ("OPTIONS".toList) data = false →
        handle_request st data
          = (st, [Effect.sendResp (bad_request_response (parse_cseq data))], false))
    ∧ (∀ (st : SState) (data : List Char) (rest : List (List Char)), data ≠ [] →
        containsSub ("SETUP".toList) data = false →
        containsSub ("PLAY".toList) data = false →
        containsSub ("TEARDOWN".toList) data = false →
        containsSub ("DESCRIBE".toList) data = false →
        containsSub ("OPTIONS".toList) data = false →
        handle_loop st (data :: rest)
          = ((handle_loop st rest).1,
             Effect.sendResp (bad_request_response (parse_cseq data)) :: (handle_loop st rest).2))
    ∧ (∀ (st : SState) (data : List Char), (handle_request st data).2.2 = true →
        containsSub ("TEARDOWN".toList) data = true) := by
  refine ⟨?_, ?_, handle_request_break⟩
  · intro st data _ h1 h2 h3 h4 h5
    exact handle_unknown st data h1 h2 h3 h4 h5
  · intro st data rest hne h1 h2 h3 h4 h5
    have hu := handle_unknown st data h1 h2 h3 h4 h5
    rw [handle_loop_cons_nobreak st data rest hne (by rw [hu])]
    rw [hu]
    simp

/-- C7 witness: after a bad request the same connection still processes
the rest of its input from the unchanged state. -/
theorem spec_C7_unknown_keeps_open_witness :
    handle_loop init_state
        (("GET / HTTP/1.1\r\nCSeq: 9\r\n\r\n".toList)
          :: [("OPTIONS rtsp://127.0.0.1:554/stream RTSP/1.0\r\nCSeq: 10\r\n\r\n".toList)])
      = ((handle_loop init_state
            [("OPTIONS rtsp://127.0.0.1:554/stream RTSP/1.0\r\nCSeq: 10\r\n\r\n".toList)]).1,
         Effect.sendResp (bad_request_response
            (parse_cseq ("GET / HTTP/1.1\r\nCSeq: 9\r\n\r\n".toList)))
          :: (handle_loop init_state
                [("OPTIONS rtsp://127.0.0.1:554/stream RTSP/1.0\r\nCSeq: 10\r\n\r\n".toList)]).2) :=
  spec_C7_unknown_keeps_open.2.1 init_state _ _ (by decide) (by decide) (by decide) (by decide)
    (by decide) (by decide)

/-- C8: a request dispatched as DESCRIBE is answered with the 200 OK
response whose headers carry `Content-Length: ` followed by
`len(sdp_payload)` and whose attached body is exactly `sdp_payload`;
and that length value equals the byte length of the body under the
UTF-8 encoding used on the wire. -/
theorem spec_C8_describe (st : SState) (data : List Char)
    (h1 : containsSub ("SETUP".toList) data = false)
    (h2 : containsSub ("PLAY".toList) data = false)
    (h3 : containsSub ("TEARDOWN".toList) data = false)
    (h4 : containsSub ("DESCRIBE".toList) data = true) :
    handle_request st data
        = (st, [Effect.sendResp (describe_response (parse_cseq data))], false)
    ∧ startsWithL (describe_response (parse_cseq data)) ("RTSP/1.0 200 OK".toList) = true
    ∧ describe_response (parse_cseq data)
        = "RTSP/1.0 200 OK\r\nCSeq: ".toList ++ parse_cseq data ++
            (("\r\nContent-Type: application/sdp\r\nContent-Length: " ++
              toString sdp_payload.length ++ "\r\n\r\n").toList ++ sdp_payload)
    ∧ (sdp_payload.map utf8Bytes).sum = sdp_payload.length := by
  refine ⟨handle_describe st data h1 h2 h3 h4, describe_response_ok _, rfl, by decide⟩

/-- C8 witness: a concrete DESCRIBE request. -/
theorem spec_C8_describe_witness :
    handle_request init_state
        ("DESCRIBE rtsp://127.0.0.1:554/stream RTSP/1.0\r\nCSeq: 4\r\n\r\n".toList)
      = (init_state,
         [Effect.sendResp (describe_response
            (parse_cseq ("DESCRIBE rtsp://127.0.0.1:554/stream RTSP/1.0\r\nCSeq: 4\r\n\r\n".toList)))],
         false) :=
  (spec_C8_describe init_state _ (by decide) (by decide) (by decide) (by decide)).1

/-- C9: if the frame source fails to open, the streamer thread emits no
datagrams and exits with `streaming_active = False` (the transition to
Running is aborted back to Idle); the PLAY control response is still the
200 OK with the session header, sent independently of stream health. -/
theorem spec_C9_source_failure :
    (∀ (activeAt : Nat → Bool) (frames : List (List Nat × Nat)),
        rtp_stream_video false activeAt frames = ([], false))
    ∧ (∀ (st : SState) (data : List Char),
        containsSub ("SETUP".toList) data = false →
        containsSub ("PLAY".toList) data = true →
        (handle_request st data).2.1
            = [Effect.sendResp (play_response (parse_cseq data))]
          ∧ startsWithL (play_response (parse_cseq data)) ("RTSP/1.0 200 OK".toList) = true) := by
  constructor
  · intro activeAt frames
    rfl
  · intro st data h1 h2
    rw [handle_play st data h1 h2]
    exact ⟨rfl, play_response_ok _⟩

/-- C9 witness: a PLAY is acknowledged 200 OK regardless of stream health. -/
theorem spec_C9_source_failure_witness :
    (handle_request init_state
        ("PLAY rtsp://127.0.0.1:554/stream RTSP/1.0\r\nCSeq: 6\r\n\r\n".toList)).2.1
        = [Effect.sendResp (play_response
            (parse_cseq ("PLAY rtsp://127.0.0.1:554/stream RTSP/1.0\r\nCSeq: 6\r\n\r\n".toList)))]
      ∧ startsWithL (play_response
          (parse_cseq ("PLAY rtsp://127.0.0.1:554/stream RTSP/1.0\r\nCSeq: 6\r\n\r\n".toList)))
          ("RTSP/1.0 200 OK".toList) = true :=
  spec_C9_source_failure.2 init_state _ (by decide) (by decide)

/-- C10: command dispatch is by substring containment with the fixed
priority SETUP, PLAY, TEARDOWN, DESCRIBE, OPTIONS: the handler chosen
is the first keyword of that list occurring anywhere in the request
text, and a keyword embedded in unrelated text triggers that command —
concretely, a `DISPLAY` request contains the substring `PLAY` and is
handled as PLAY, starting the stream. -/
theorem spec_C10_dispatch :
    (∀ (st : SState) (data : List Char), containsSub ("SETUP".toList) data = true →
        handle_request st data
          = (st, [Effect.sendResp (setup_response (parse_cseq data))], false))
    ∧ (∀ (st : SState) (data : List Char),
        containsSub ("SETUP".toList) data = false →
        containsSub ("PLAY".toList) data = true →
        handle_request st data
          = ((if st.streaming_active = false then
              ({ streaming_active := true, running_streamers := st.running_streamers + 1 } : SState)
              else st),
             [Effect.sendResp (play_response (parse_cseq data))], false))
    ∧ (∀ (st : SState) (data : List Char),
        containsSub ("SETUP".toList) data = false →
        containsSub ("PLAY".toList) data = false →
        containsSub ("TEARDOWN".toList) data = true →
        handle_request st data
          = (⟨false, 0⟩,
             (if 0 < st.running_streamers then
               [Effect.joinStreamer TEARDOWN_JOIN_TIMEOUT,
                 Effect.sendResp (teardown_response (parse_cseq data))]
             else [Effect.sendResp (teardown_response (parse_cseq data))]), true))
    ∧ (∀ (st : SState) (data : List Char),
        containsSub ("SETUP".toList) data = false →
        containsSub ("PLAY".toList) data = false →
        containsSub ("TEARDOWN".toList) data = false →
        containsSub ("DESCRIBE".toList) data = true →
        handle_request st data
          = (st, [Effect.sendResp (describe_response (parse_cseq data))], false))
    ∧ (∀ (st : SState) (data : List Char),
        containsSub ("SETUP".toList) data = false →
        containsSub ("PLAY".toList) data = false →
        containsSub ("TEARDOWN".toList) data = false →
        containsSub ("DESCRIBE".toList) data = false →
        containsSub ("OPTIONS".toList) data = true →
        handle_request st data
          = (st, [Effect.sendResp (options_response (parse_cseq data))], false))
    ∧ (∀ (st : SState) (data : List Char),
        containsSub ("SETUP".toList) data = false →
        containsSub ("PLAY".toList) data = false →
        containsSub ("TEARDOWN".toList) data = false →
        containsSub ("DESCRIBE".toList) data = false →
        containsSub ("OPTIONS".toList) data = false →
        handle_request st data
          = (st, [Effect.sendResp (bad_request_response (parse_cseq data))], false))
    ∧ (containsSub ("PLAY".toList)
          ("DISPLAY rtsp://127.0.0.1:554/stream RTSP/1.0\r\nCSeq: 7\r\n\r\n".toList) = true
        ∧ handle_request init_state
            ("DISPLAY rtsp://127.0.0.1:554/stream RTSP/1.0\r\nCSeq: 7\r\n\r\n".toList)
          = (⟨true, 1⟩, [Effect.sendResp (play_response ("7".toList))], false)) :=
  ⟨handle_setup, handle_play, handle_teardown, handle_describe, handle_options,
    handle_unknown, by decide, by decide⟩

/-- C10 witness: a SETUP request is dispatched to the SETUP handler. -/
theorem spec_C10_dispatch_witness :
    handle_request init_state
        ("SETUP rtsp://127.0.0.1:554/stream RTSP/1.0\r\nCSeq: 5\r\n\r\n".toList)
      = (init_state,
         [Effect.sendResp (setup_response
            (parse_cseq ("SETUP rtsp://127.0.0.1:554/stream RTSP/1.0\r\nCSeq: 5\r\n\r\n".toList)))],
         false) :=
  spec_C10_dispatch.1 init_state _ (by decide)
